import Mathlib

/-
Shallow embedding of the 6502 CPU interpreter from src/main.rs.

Modelling conventions:
- Rust u8/u16 values are modelled as Nat; arithmetic on them is modelled
  with explicit wraparound (mod 256 / mod 65536), i.e. the wrapping
  semantics of Rust release builds.  Bitwise complement of a u8 mask
  literal is written as the complemented literal (e.g. the source's
  bitwise-not of 0b0000_0010 appears here as 0b11111101).
- The backing memory of the source is the fixed-size array [u8; 0xFFFF]
  (65535 cells, indices 0 .. 0xFFFE).  Array indexing panics when the
  index is out of bounds, in every build profile; memory accesses are
  therefore modelled as Option, with none for an out-of-bounds access.
  The cell contents are modelled as a total function Nat to Nat; the
  byte invariant (cells below 256) is carried as a hypothesis where a
  theorem needs it.
- A Rust panic (array out of bounds, todo!(), an unsupported addressing
  mode) is modelled as none.
-/

namespace CPU6502

def CARRY_FLAG : Nat := 0b00000001
def INTERRUPT_FLAG : Nat := 0b00000100
def DECIMAL_FLAG : Nat := 0b00001000
def BREAK_FLAG : Nat := 0b00010000
def INVALID_FLAG : Nat := 0b00100000
def NEGATIVE_FLAG : Nat := 0b10000000
def ZERO_FLAG : Nat := 0b00000010
def OVERFOW_FLAG : Nat := 0b01000000

/- Source: pub fn is_flag_set(flag:u8, x:u8) -> bool { x & flag > 0 } -/
def is_flag_set (flag x : Nat) : Bool := decide (0 < x &&& flag)

/- Architectural state of the source struct CPU.  The source memory field
is the array [u8; 0xFFFF]; its cell contents are the function memory,
and its 65535-element bound is enforced by mem_read / mem_write below. -/
structure CPU where
  register_a : Nat
  register_x : Nat
  register_y : Nat
  status : Nat
  program_counter : Nat
  stackpointer : Nat
  memory : Nat → Nat

inductive AddressingMode where
  | Accumulator
  | Immediate
  | Zeropage
  | Zeropage_X
  | Zeropage_Y
  | Absolute
  | Absolute_X
  | Absolute_Y
  | Indirect
  | Indirect_X
  | Indirect_Y
  | Relative
  | NoneAddressinng
deriving DecidableEq

/- Source: fn mem_read(&self, addr:u16) -> u8 { self.memory[addr as usize] }.
The array has 0xFFFF elements, so index 0xFFFF is out of bounds. -/
def mem_read (cpu : CPU) (addr : Nat) : Option Nat :=
  if addr < 0xFFFF then some (cpu.memory addr) else none

/- Source: fn mem_write(&mut self, addr:u16, data:u8). -/
def mem_write (cpu : CPU) (addr data : Nat) : Option CPU :=
  if addr < 0xFFFF then
    some { cpu with memory := fun a => if a = addr then data else cpu.memory a }
  else none

/- Source: fn mem_read_u16: lo at pos, hi at pos + 1 (u16 addition). -/
def mem_read_u16 (cpu : CPU) (pos : Nat) : Option Nat :=
  match mem_read cpu pos with
  | none => none
  | some lo =>
    match mem_read cpu ((pos + 1) % 65536) with
    | none => none
    | some hi => some ((hi <<< 8) ||| lo)

/- Source: fn mem_write_u16: hi = data >> 8 (as u8), lo = data & 0xff;
writes lo at pos, hi at pos + 1. -/
def mem_write_u16 (cpu : CPU) (pos data : Nat) : Option CPU :=
  let hi := (data >>> 8) % 256
  let lo := data &&& 0xff
  match mem_write cpu pos lo with
  | none => none
  | some c => mem_write c ((pos + 1) % 65536) hi

/- Source: fn load copies the program into memory[0x8000 .. 0x8000+len]
(slicing panics unless the end is at most the array length 0xFFFF) and
then writes 0x8000 through mem_write_u16 at 0xFFFC. -/
def load (cpu : CPU) (program : List Nat) : Option CPU :=
  if 0x8000 + program.length ≤ 0xFFFF then
    let copied : CPU :=
      { cpu with memory := fun a =>
          if 0x8000 ≤ a ∧ a < 0x8000 + program.length then program.getD (a - 0x8000) 0
          else cpu.memory a }
    mem_write_u16 copied 0xFFFC 0x8000
  else none

/- Source: fn new() — everything zeroed, stackpointer 0xff, memory zeroed. -/
def new : CPU :=
  { register_a := 0, register_x := 0, register_y := 0, status := 0,
    program_counter := 0, stackpointer := 0xff, memory := fun _ => 0 }

/- Source: fn reset() — zero A/X/Y, SP := 0xff, P := 0, PC from 0xFFFC. -/
def reset (cpu : CPU) : Option CPU :=
  let c := { cpu with register_a := 0, register_x := 0, register_y := 0,
                      stackpointer := 0xff, status := 0 }
  match mem_read_u16 c 0xFFFC with
  | none => none
  | some pc => some { c with program_counter := pc }

/- Sign extension of a byte, as the source's (addr as i8) as i32 cast. -/
def signext (d : Nat) : Int := if d < 128 then (d : Int) else (d : Int) - 256

/- Source: fn get_operand_address(&mut self, mode).  NoneAddressinng
panics in the source. -/
def get_operand_address (cpu : CPU) (mode : AddressingMode) : Option Nat :=
  match mode with
  | AddressingMode.Accumulator => some cpu.register_a
  | AddressingMode.Immediate => some cpu.program_counter
  | AddressingMode.Zeropage => mem_read cpu cpu.program_counter
  | AddressingMode.Absolute => mem_read_u16 cpu cpu.program_counter
  | AddressingMode.Zeropage_Y =>
    match mem_read cpu cpu.program_counter with
    | none => none
    | some pos => some ((pos + cpu.register_y) % 256)
  | AddressingMode.Zeropage_X =>
    match mem_read cpu cpu.program_counter with
    | none => none
    | some pos => some ((pos + cpu.register_x) % 256)
  | AddressingMode.Absolute_X =>
    match mem_read_u16 cpu cpu.program_counter with
    | none => none
    | some pos => some ((pos + cpu.register_x) % 65536)
  | AddressingMode.Absolute_Y =>
    match mem_read_u16 cpu cpu.program_counter with
    | none => none
    | some pos => some ((pos + cpu.register_y) % 65536)
  | AddressingMode.Indirect =>
    match mem_read_u16 cpu cpu.program_counter with
    | none => none
    | some addr => mem_read_u16 cpu addr
  | AddressingMode.Indirect_X =>
    match mem_read cpu cpu.program_counter with
    | none => none
    | some pos =>
      let base := (pos + cpu.register_x) % 256
      match mem_read cpu base with
      | none => none
      | some lo =>
        match mem_read cpu ((base + 1) % 256) with
        | none => none
        | some hi => some ((hi <<< 8) ||| lo)
  | AddressingMode.Indirect_Y =>
    match mem_read cpu cpu.program_counter with
    | none => none
    | some pos =>
      match mem_read cpu pos with
      | none => none
      | some lo =>
        match mem_read cpu ((pos + 1) % 256) with
        | none => none
        | some hi => some ((((hi <<< 8) ||| lo) + cpu.register_y) % 65536)
  | AddressingMode.Relative =>
    match mem_read cpu cpu.program_counter with
    | none => none
    | some addr =>
      some (Int.toNat ((signext addr + (cpu.program_counter : Int)) % 65536))
  | AddressingMode.NoneAddressinng => none

/- Source: fn update_zero_and_negative_flags(&mut self, result:u8).
Modelled as a function from the current status and the result to the new
status. -/
def update_zero_and_negative_flags (status result : Nat) : Nat :=
  let s1 := if result = 0 then status ||| 0b00000010 else status &&& 0b11111101
  if result &&& 0b10000000 ≠ 0 then s1 ||| 0b10000000 else s1 &&& 0b01111111

/- Source: fn sec(). -/
def sec (cpu : CPU) : CPU := { cpu with status := cpu.status ||| 0b00000001 }

/- Source: fn clc(). -/
def clc (cpu : CPU) : CPU := { cpu with status := cpu.status &&& 0b11111110 }

/- Source: fn lda. -/
def lda (cpu : CPU) (mode : AddressingMode) : Option CPU :=
  match get_operand_address cpu mode with
  | none => none
  | some addr =>
    match mem_read cpu addr with
    | none => none
    | some value =>
      some { cpu with register_a := value,
                      status := update_zero_and_negative_flags cpu.status value }

/- Source: fn ldx. -/
def ldx (cpu : CPU) (mode : AddressingMode) : Option CPU :=
  match get_operand_address cpu mode with
  | none => none
  | some addr =>
    match mem_read cpu addr with
    | none => none
    | some value =>
      some { cpu with register_x := value,
                      status := update_zero_and_negative_flags cpu.status value }

/- Source: fn ldy. -/
def ldy (cpu : CPU) (mode : AddressingMode) : Option CPU :=
  match get_operand_address cpu mode with
  | none => none
  | some addr =>
    match mem_read cpu addr with
    | none => none
    | some value =>
      some { cpu with register_y := value,
                      status := update_zero_and_negative_flags cpu.status value }

/- Source: fn sta. -/
def sta (cpu : CPU) (mode : AddressingMode) : Option CPU :=
  match get_operand_address cpu mode with
  | none => none
  | some addr => mem_write cpu addr cpu.register_a

/- Source: fn stx. -/
def stx (cpu : CPU) (mode : AddressingMode) : Option CPU :=
  match get_operand_address cpu mode with
  | none => none
  | some addr => mem_write cpu addr cpu.register_x

/- Source: fn sty. -/
def sty (cpu : CPU) (mode : AddressingMode) : Option CPU :=
  match get_operand_address cpu mode with
  | none => none
  | some addr => mem_write cpu addr cpu.register_y

/- Source: fn adc.  touple / touple2 are overflowing_add on u8: the value
component is mod 256, the flag component is whether the mathematical sum
reached 256.  register_a is written before the flag block; the flag block
then reads the new register_a (inlined here as a2). -/
def adc (cpu : CPU) (mode : AddressingMode) : Option CPU :=
  match get_operand_address cpu mode with
  | none => none
  | some addr =>
    match mem_read cpu addr with
    | none => none
    | some pos =>
      let tmp := cpu.register_a
      let t1 := pos + (cpu.status &&& 0x01)
      let base := t1 % 256
      let t2 := cpu.register_a + base
      let a2 := t2 % 256
      let s1 := if cpu.status &&& 0b00000001 = 0b00000001
                then cpu.status &&& 0b11111110 else cpu.status
      let s2 := update_zero_and_negative_flags s1 a2
      let s3 := if 256 ≤ t1 ∨ 256 ≤ t2 then s2 ||| 0x01 else s2 &&& 0b11111110
      let s4 := if (a2 ^^^ tmp) &&& (a2 ^^^ pos) &&& 0x80 ≠ 0
                then s3 ||| 0b01000000 else s3 &&& 0b10111111
      some { cpu with register_a := a2, status := s4 }

/- Source: fn sbc.  The operand is complemented (u8 bitwise not, i.e.
xor 0xFF); the carry that is finally written comes from the negative flag
just computed by update_zero_and_negative_flags, not from the adder. -/
def sbc (cpu : CPU) (mode : AddressingMode) : Option CPU :=
  match get_operand_address cpu mode with
  | none => none
  | some addr =>
    match mem_read cpu addr with
    | none => none
    | some pos =>
      let tmp := cpu.register_a
      let notpos := pos ^^^ 0xFF
      let t1 := notpos + (cpu.status &&& 0x01)
      let base := t1 % 256
      let t2 := cpu.register_a + base
      let a2 := t2 % 256
      let s1 := if cpu.status &&& 0b00000001 = 0b00000001
                then cpu.status &&& 0b11111110 else cpu.status
      let s2 := update_zero_and_negative_flags s1 a2
      let s3 := if ¬ (s2 &&& 0b10000000 = 0b10000000)
                then s2 ||| 0b00000001 else s2 &&& 0b11111110
      let s4 := if (a2 ^^^ tmp) &&& (a2 ^^^ notpos) &&& 0x80 ≠ 0
                then s3 ||| 0b01000000 else s3 &&& 0b10111111
      some { cpu with register_a := a2, status := s4 }

/- Source: fn inc. -/
def inc (cpu : CPU) (mode : AddressingMode) : Option CPU :=
  match get_operand_address cpu mode with
  | none => none
  | some addr =>
    match mem_read cpu addr with
    | none => none
    | some value =>
      let new_value := (value + 1) % 256
      match mem_write cpu addr new_value with
      | none => none
      | some c =>
        some { c with status := update_zero_and_negative_flags c.status new_value }

/- Source: fn dec (overflowing_sub 1 on u8, i.e. + 255 mod 256). -/
def dec (cpu : CPU) (mode : AddressingMode) : Option CPU :=
  match get_operand_address cpu mode with
  | none => none
  | some addr =>
    match mem_read cpu addr with
    | none => none
    | some value =>
      let new_value := (value + 255) % 256
      match mem_write cpu addr new_value with
      | none => none
      | some c =>
        some { c with status := update_zero_and_negative_flags c.status new_value }

/- Source: fn inx. -/
def inx (cpu : CPU) : CPU :=
  let v := (cpu.register_x + 1) % 256
  { cpu with register_x := v, status := update_zero_and_negative_flags cpu.status v }

/- Source: fn dex. -/
def dex (cpu : CPU) : CPU :=
  let v := (cpu.register_x + 255) % 256
  { cpu with register_x := v, status := update_zero_and_negative_flags cpu.status v }

/- Source: fn iny. -/
def iny (cpu : CPU) : CPU :=
  let v := (cpu.register_y + 1) % 256
  { cpu with register_y := v, status := update_zero_and_negative_flags cpu.status v }

/- Source: fn dey. -/
def dey (cpu : CPU) : CPU :=
  let v := (cpu.register_y + 255) % 256
  { cpu with register_y := v, status := update_zero_and_negative_flags cpu.status v }

/- Source: fn tax. -/
def tax (cpu : CPU) : CPU :=
  { cpu with register_x := cpu.register_a,
             status := update_zero_and_negative_flags cpu.status cpu.register_a }

/- Source: fn txa. -/
def txa (cpu : CPU) : CPU :=
  { cpu with register_a := cpu.register_x,
             status := update_zero_and_negative_flags cpu.status cpu.register_x }

/- Source: fn tay. -/
def tay (cpu : CPU) : CPU :=
  { cpu with register_y := cpu.register_a,
             status := update_zero_and_negative_flags cpu.status cpu.register_a }

/- Source: fn tya. -/
def tya (cpu : CPU) : CPU :=
  { cpu with register_a := cpu.register_y,
             status := update_zero_and_negative_flags cpu.status cpu.register_y }

/- Source: fn asl (wrapping_mul 2 on u8). -/
def asl (cpu : CPU) (mode : AddressingMode) : Option CPU :=
  match mode with
  | AddressingMode.Accumulator =>
    let value := cpu.register_a
    let bit7_tmp := value &&& 0b10000000
    let new_value := (value * 2) % 256
    let s1 := cpu.status &&& 0b11111110
    let s2 := s1 ||| (bit7_tmp >>> 7)
    some { cpu with register_a := new_value,
                    status := update_zero_and_negative_flags s2 new_value }
  | _ =>
    match get_operand_address cpu mode with
    | none => none
    | some addr =>
      match mem_read cpu addr with
      | none => none
      | some value =>
        let bit7_tmp := value &&& 0b10000000
        let new_value := (value * 2) % 256
        match mem_write cpu addr new_value with
        | none => none
        | some c =>
          let s1 := c.status &&& 0b11111110
          let s2 := s1 ||| (bit7_tmp >>> 7)
          some { c with status := update_zero_and_negative_flags s2 new_value }

/- Source: fn lsr (wrapping_div 2 on u8). -/
def lsr (cpu : CPU) (mode : AddressingMode) : Option CPU :=
  match mode with
  | AddressingMode.Accumulator =>
    let value := cpu.register_a
    let bit0_tmp := value &&& 0b00000001
    let new_value := value / 2
    let s1 := cpu.status &&& 0b11111110
    let s2 := s1 ||| bit0_tmp
    some { cpu with register_a := new_value,
                    status := update_zero_and_negative_flags s2 new_value }
  | _ =>
    match get_operand_address cpu mode with
    | none => none
    | some addr =>
      match mem_read cpu addr with
      | none => none
      | some value =>
        let bit0_tmp := value &&& 0b00000001
        let new_value := value / 2
        match mem_write cpu addr new_value with
        | none => none
        | some c =>
          let s1 := c.status &&& 0b11111110
          let s2 := s1 ||| bit0_tmp
          some { c with status := update_zero_and_negative_flags s2 new_value }

/- Source: fn rol. -/
def rol (cpu : CPU) (mode : AddressingMode) : Option CPU :=
  match mode with
  | AddressingMode.Accumulator =>
    let value := cpu.register_a
    let bit7_tmp := value &&& 0b10000000
    let carry_tmp := cpu.status &&& 0b00000001
    let tmp_value := (value * 2) % 256
    let tmp_value_without_carry := tmp_value &&& 0b11111110
    let modified_value := tmp_value_without_carry ||| carry_tmp
    let s1 := cpu.status &&& 0b11111110
    let s2 := s1 ||| (bit7_tmp >>> 7)
    some { cpu with register_a := modified_value,
                    status := update_zero_and_negative_flags s2 modified_value }
  | _ =>
    match get_operand_address cpu mode with
    | none => none
    | some addr =>
      match mem_read cpu addr with
      | none => none
      | some value =>
        let bit7_tmp := value &&& 0b10000000
        let carry_tmp := cpu.status &&& 0b00000001
        let tmp_value := (value * 2) % 256
        let tmp_value_without_carry := tmp_value &&& 0b11111110
        let modified_value := tmp_value_without_carry ||| carry_tmp
        match mem_write cpu addr modified_value with
        | none => none
        | some c =>
          let s1 := c.status &&& 0b11111110
          let s2 := s1 ||| (bit7_tmp >>> 7)
          some { c with status := update_zero_and_negative_flags s2 modified_value }

/- Source: fn ror. -/
def ror (cpu : CPU) (mode : AddressingMode) : Option CPU :=
  match mode with
  | AddressingMode.Accumulator =>
    let v0 := cpu.register_a
    let borrow := v0 % 2
    let v1 := v0 / 2
    let v2 := v1 ||| ((cpu.status &&& 0b00000001) <<< 7)
    let c1 := { cpu with register_a := v2 }
    let s1 := if borrow = 1 then c1.status ||| 0b00000001 else c1.status &&& 0b11111110
    some { c1 with status := update_zero_and_negative_flags s1 v2 }
  | _ =>
    match get_operand_address cpu mode with
    | none => none
    | some addr =>
      match mem_read cpu addr with
      | none => none
      | some v0 =>
        let borrow := v0 % 2
        let v1 := v0 / 2
        let v2 := v1 ||| ((cpu.status &&& 0b00000001) <<< 7)
        match mem_write cpu addr v2 with
        | none => none
        | some c1 =>
          let s1 := if borrow = 1 then c1.status ||| 0b00000001
                    else c1.status &&& 0b11111110
          some { c1 with status := update_zero_and_negative_flags s1 v2 }

/- Source: fn and. -/
def and (cpu : CPU) (mode : AddressingMode) : Option CPU :=
  match get_operand_address cpu mode with
  | none => none
  | some addr =>
    match mem_read cpu addr with
    | none => none
    | some value =>
      let v := cpu.register_a &&& value
      some { cpu with register_a := v,
                      status := update_zero_and_negative_flags cpu.status v }

/- Source: fn ora. -/
def ora (cpu : CPU) (mode : AddressingMode) : Option CPU :=
  match get_operand_address cpu mode with
  | none => none
  | some addr =>
    match mem_read cpu addr with
    | none => none
    | some value =>
      let v := cpu.register_a ||| value
      some { cpu with register_a := v,
                      status := update_zero_and_negative_flags cpu.status v }

/- Source: fn eor. -/
def eor (cpu : CPU) (mode : AddressingMode) : Option CPU :=
  match get_operand_address cpu mode with
  | none => none
  | some addr =>
    match mem_read cpu addr with
    | none => none
    | some value =>
      let v := cpu.register_a ^^^ value
      some { cpu with register_a := v,
                      status := update_zero_and_negative_flags cpu.status v }

/- Source: fn bit. -/
def bit (cpu : CPU) (mode : AddressingMode) : Option CPU :=
  match get_operand_address cpu mode with
  | none => none
  | some addr =>
    match mem_read cpu addr with
    | none => none
    | some value =>
      let bit6_tmp := value &&& 0b01000000
      let bit7_tmp := value &&& 0b10000000
      let result := cpu.register_a &&& value
      let s1 := if result = 0 then cpu.status ||| 0b00000010
                else cpu.status &&& 0b11111101
      let s2 := if bit6_tmp = 0b01000000 then s1 ||| bit6_tmp else s1 &&& 0b10111111
      let s3 := if bit7_tmp = 0b10000000 then s2 ||| bit7_tmp else s2 &&& 0b01111111
      some { cpu with status := s3 }

/- Source: fn cmp.  The source computes register_a - value with plain u8
subtraction (which underflows whenever register_a < value); modelled here
with the wrapping result (reg + 256 - value) mod 256. -/
def cmp (cpu : CPU) (mode : AddressingMode) : Option CPU :=
  match get_operand_address cpu mode with
  | none => none
  | some addr =>
    match mem_read cpu addr with
    | none => none
    | some value =>
      let result := (cpu.register_a + 256 - value) % 256
      let s1 := if result = 0 then cpu.status ||| 0b00000010
                else cpu.status &&& 0b11111101
      let s2 := if ¬ (result &&& 0b10000000 = 0b10000000) then s1 ||| 0b00000001
                else s1 &&& 0b11111110
      let s3 := if result &&& 0b10000000 = 0b10000000 then s2 ||| 0b10000000
                else s2 &&& 0b01111111
      some { cpu with status := s3 }

/- Source: fn cpx (same shape as cmp, on register_x). -/
def cpx (cpu : CPU) (mode : AddressingMode) : Option CPU :=
  match get_operand_address cpu mode with
  | none => none
  | some addr =>
    match mem_read cpu addr with
    | none => none
    | some value =>
      let result := (cpu.register_x + 256 - value) % 256
      let s1 := if result = 0 then cpu.status ||| 0b00000010
                else cpu.status &&& 0b11111101
      let s2 := if ¬ (result &&& 0b10000000 = 0b10000000) then s1 ||| 0b00000001
                else s1 &&& 0b11111110
      let s3 := if result &&& 0b10000000 = 0b10000000 then s2 ||| 0b10000000
                else s2 &&& 0b01111111
      some { cpu with status := s3 }

/- Source: fn cpy (same shape as cmp, on register_y). -/
def cpy (cpu : CPU) (mode : AddressingMode) : Option CPU :=
  match get_operand_address cpu mode with
  | none => none
  | some addr =>
    match mem_read cpu addr with
    | none => none
    | some value =>
      let result := (cpu.register_y + 256 - value) % 256
      let s1 := if result = 0 then cpu.status ||| 0b00000010
                else cpu.status &&& 0b11111101
      let s2 := if ¬ (result &&& 0b10000000 = 0b10000000) then s1 ||| 0b00000001
                else s1 &&& 0b11111110
      let s3 := if result &&& 0b10000000 = 0b10000000 then s2 ||| 0b10000000
                else s2 &&& 0b01111111
      some { cpu with status := s3 }

/- Source: fn branch — only acts when the mode is Relative. -/
def branch (cpu : CPU) (mode : AddressingMode) : Option CPU :=
  if mode = AddressingMode.Relative then
    match get_operand_address cpu mode with
    | none => none
    | some addr => some { cpu with program_counter := addr }
  else some cpu

/- Source: fn bcc — checks the flag before resolving the operand. -/
def bcc (cpu : CPU) (mode : AddressingMode) : Option CPU :=
  if is_flag_set CARRY_FLAG cpu.status = false then branch cpu mode else some cpu

/- Source: fn bcs — resolves the operand first, then checks the flag. -/
def bcs (cpu : CPU) (mode : AddressingMode) : Option CPU :=
  match get_operand_address cpu mode with
  | none => none
  | some addr =>
    if is_flag_set CARRY_FLAG cpu.status = true
    then some { cpu with program_counter := addr } else some cpu

/- Source: fn beq — resolves the operand first, then checks the flag. -/
def beq (cpu : CPU) (mode : AddressingMode) : Option CPU :=
  match get_operand_address cpu mode with
  | none => none
  | some addr =>
    if is_flag_set ZERO_FLAG cpu.status = true
    then some { cpu with program_counter := addr } else some cpu

/- Source: fn bne. -/
def bne (cpu : CPU) (mode : AddressingMode) : Option CPU :=
  if is_flag_set ZERO_FLAG cpu.status = false then branch cpu mode else some cpu

/- Source: fn bpl. -/
def bpl (cpu : CPU) (mode : AddressingMode) : Option CPU :=
  if is_flag_set NEGATIVE_FLAG cpu.status = false then branch cpu mode else some cpu

/- Source: fn bmi. -/
def bmi (cpu : CPU) (mode : AddressingMode) : Option CPU :=
  if is_flag_set NEGATIVE_FLAG cpu.status = true then branch cpu mode else some cpu

/- Source: fn bvc. -/
def bvc (cpu : CPU) (mode : AddressingMode) : Option CPU :=
  if is_flag_set OVERFOW_FLAG cpu.status = false then branch cpu mode else some cpu

/- Source: fn bvs. -/
def bvs (cpu : CPU) (mode : AddressingMode) : Option CPU :=
  if is_flag_set OVERFOW_FLAG cpu.status = true then branch cpu mode else some cpu

/- Source: fn push — writes hi at 0x0100+SP, lo at 0x0100+(SP-1), then
SP := SP - 2 (u8 subtraction, modelled with wraparound). -/
def push (cpu : CPU) (data : Nat) : Option CPU :=
  let hi := (data >>> 8) % 256
  let lo := data &&& 0xff
  match mem_write cpu (0x0100 + cpu.stackpointer) hi with
  | none => none
  | some c1 =>
    match mem_write c1 (0x0100 + (cpu.stackpointer + 255) % 256) lo with
    | none => none
    | some c2 => some { c2 with stackpointer := (c2.stackpointer + 254) % 256 }

/- Source: fn push_pc — pushes program_counter + 2 (u16 addition). -/
def push_pc (cpu : CPU) : Option CPU :=
  push cpu ((cpu.program_counter + 2) % 65536)

/- Source: fn pop_pc — SP := SP + 2, hi at 0x0100+SP, lo at 0x0100+(SP-1),
returns (hi << 8) | (lo + 1) (Rust precedence: + binds tighter than |). -/
def pop_pc (cpu : CPU) : Option (CPU × Nat) :=
  let sp := (cpu.stackpointer + 2) % 256
  let c1 := { cpu with stackpointer := sp }
  match mem_read c1 (0x0100 + sp) with
  | none => none
  | some hi =>
    match mem_read c1 (0x0100 + (sp + 255) % 256) with
    | none => none
    | some lo => some (c1, (hi <<< 8) ||| (lo + 1))

/- Source: fn pop_flag — SP := SP + 1, read at 0x0100+SP. -/
def pop_flag (cpu : CPU) : Option (CPU × Nat) :=
  let sp := (cpu.stackpointer + 1) % 256
  let c1 := { cpu with stackpointer := sp }
  match mem_read c1 (0x0100 + sp) with
  | none => none
  | some flag => some (c1, flag)

/- Source: fn jmp — Absolute and Indirect only; any other mode panics. -/
def jmp (cpu : CPU) (mode : AddressingMode) : Option CPU :=
  match mode with
  | AddressingMode.Absolute =>
    match mem_read_u16 cpu cpu.program_counter with
    | none => none
    | some value => some { cpu with program_counter := value }
  | AddressingMode.Indirect =>
    match get_operand_address cpu AddressingMode.Indirect with
    | none => none
    | some value => some { cpu with program_counter := value }
  | _ => none

/- Source: fn jsr — Absolute only; reads the target, pushes the return
address with push_pc, then jumps. -/
def jsr (cpu : CPU) (mode : AddressingMode) : Option CPU :=
  match mode with
  | AddressingMode.Absolute =>
    match mem_read_u16 cpu cpu.program_counter with
    | none => none
    | some value =>
      match push_pc cpu with
      | none => none
      | some c => some { c with program_counter := value }
  | _ => none

/- Source: fn rts — PC := pop_pc() + 1 (u16 addition). -/
def rts (cpu : CPU) : Option CPU :=
  match pop_pc cpu with
  | none => none
  | some (c, pc) => some { c with program_counter := (pc + 1) % 65536 }

/- Source: fn rti — pop status (clear B, force U), then pop PC (no +1). -/
def rti (cpu : CPU) : Option CPU :=
  match pop_flag cpu with
  | none => none
  | some (c1, flag) =>
    let c2 := { c1 with status := (flag &&& 0b11101111) ||| INVALID_FLAG }
    match pop_pc c2 with
    | none => none
    | some (c3, pc) => some { c3 with program_counter := pc }

/- Source: fn brk — PC from 0xFFFE, then set the B flag.  (Dead code: the
run loop returns on opcode 0x00 without calling this.) -/
def brk (cpu : CPU) : Option CPU :=
  match mem_read_u16 cpu 0xFFFE with
  | none => none
  | some v => some { cpu with program_counter := v, status := cpu.status ||| BREAK_FLAG }

/- Source: fn pha. -/
def pha (cpu : CPU) : Option CPU :=
  match mem_write cpu (0x0100 + cpu.stackpointer) cpu.register_a with
  | none => none
  | some c => some { c with stackpointer := (c.stackpointer + 255) % 256 }

/- Source: fn pla. -/
def pla (cpu : CPU) : Option CPU :=
  let sp := (cpu.stackpointer + 1) % 256
  let c1 := { cpu with stackpointer := sp }
  match mem_read c1 (0x0100 + sp) with
  | none => none
  | some v =>
    some { c1 with register_a := v,
                   status := update_zero_and_negative_flags c1.status v }

/- Source: fn php — pushes status with B and U forced to 1. -/
def php (cpu : CPU) : Option CPU :=
  match mem_write cpu (0x0100 + cpu.stackpointer)
          (cpu.status ||| BREAK_FLAG ||| INVALID_FLAG) with
  | none => none
  | some c => some { c with stackpointer := (c.stackpointer + 255) % 256 }

/- Source: fn plp — SP := SP + 1, then status := the byte read there,
verbatim. -/
def plp (cpu : CPU) : Option CPU :=
  let sp := (cpu.stackpointer + 1) % 256
  let c1 := { cpu with stackpointer := sp }
  match mem_read c1 (0x0100 + sp) with
  | none => none
  | some v => some { c1 with status := v }

/- Source: fn txs. -/
def txs (cpu : CPU) : CPU := { cpu with stackpointer := cpu.register_x }

/- Source: fn tsx. -/
def tsx (cpu : CPU) : CPU :=
  { cpu with register_x := cpu.stackpointer,
             status := update_zero_and_negative_flags cpu.status cpu.stackpointer }

/- Source: fn cli (u8 complement of INTERRUPT_FLAG is 0b11111011). -/
def cli (cpu : CPU) : CPU := { cpu with status := cpu.status &&& 0b11111011 }

/- Source: fn sei. -/
def sei (cpu : CPU) : CPU := { cpu with status := cpu.status ||| INTERRUPT_FLAG }

/- Source: fn cld (u8 complement of DECIMAL_FLAG is 0b11110111). -/
def cld (cpu : CPU) : CPU := { cpu with status := cpu.status &&& 0b11110111 }

/- Source: fn sed. -/
def sed (cpu : CPU) : CPU := { cpu with status := cpu.status ||| DECIMAL_FLAG }

/- Source: fn clv (u8 complement of OVERFOW_FLAG is 0b10111111). -/
def clv (cpu : CPU) : CPU := { cpu with status := cpu.status &&& 0b10111111 }

/- Result of one iteration of the source run loop: next for an iteration
that falls through to the next fetch, halt for the return on opcode 0x00. -/
inductive StepResult where
  | next (st : CPU)
  | halt (st : CPU)

/- Models self.program_counter += k (u16 addition, wraparound). -/
def bump (cpu : CPU) (k : Nat) : CPU :=
  { cpu with program_counter := (cpu.program_counter + k) % 65536 }

/- Dispatch arm that runs a fallible handler and then advances PC by the
operand byte count k. -/
def contStep (r : Option CPU) (k : Nat) : Option StepResult :=
  match r with
  | none => none
  | some c => some (StepResult.next (bump c k))

/- Dispatch arm for an infallible handler with no PC adjustment. -/
def contPure (c : CPU) : Option StepResult := some (StepResult.next c)

/- Dispatch arm for a fallible handler with no PC adjustment. -/
def contJump (r : Option CPU) : Option StepResult :=
  match r with
  | none => none
  | some c => some (StepResult.next c)

/- One iteration of the source fn run(): fetch the opcode at PC, advance
PC by 1, dispatch.  Opcode 0x00 returns from run (halt); an opcode with
no arm hits the source catch-all todo!(), a panic, modelled as none.
The table below transcribes the source match arm for arm, including the
0x6C arm (dispatched with Absolute mode in the source) and the 0x94 arm
(dispatched with Zeropage_Y in the source). -/
def run_step (cpu0 : CPU) : Option StepResult :=
  match mem_read cpu0 cpu0.program_counter with
  | none => none
  | some code =>
    let cpu := bump cpu0 1
    match code with
    | 0x38 => contPure (sec cpu)
    | 0x18 => contPure (clc cpu)
    | 0xA9 => contStep (lda cpu AddressingMode.Immediate) 1
    | 0xA5 => contStep (lda cpu AddressingMode.Zeropage) 1
    | 0xB5 => contStep (lda cpu AddressingMode.Zeropage_X) 1
    | 0xAD => contStep (lda cpu AddressingMode.Absolute) 2
    | 0xBD => contStep (lda cpu AddressingMode.Absolute_X) 2
    | 0xB9 => contStep (lda cpu AddressingMode.Absolute_Y) 2
    | 0xA1 => contStep (lda cpu AddressingMode.Indirect_X) 1
    | 0xB1 => contStep (lda cpu AddressingMode.Indirect_Y) 1
    | 0xA2 => contStep (ldx cpu AddressingMode.Immediate) 1
    | 0xA6 => contStep (ldx cpu AddressingMode.Zeropage) 1
    | 0xB6 => contStep (ldx cpu AddressingMode.Zeropage_Y) 1
    | 0xAE => contStep (ldx cpu AddressingMode.Absolute) 2
    | 0xBE => contStep (ldx cpu AddressingMode.Absolute_Y) 2
    | 0xA0 => contStep (ldy cpu AddressingMode.Immediate) 1
    | 0xA4 => contStep (ldy cpu AddressingMode.Zeropage) 1
    | 0xB4 => contStep (ldy cpu AddressingMode.Zeropage_X) 1
    | 0xAC => contStep (ldy cpu AddressingMode.Absolute) 2
    | 0xBC => contStep (ldy cpu AddressingMode.Absolute_X) 2
    | 0x85 => contStep (sta cpu AddressingMode.Zeropage) 1
    | 0x95 => contStep (sta cpu AddressingMode.Zeropage_X) 1
    | 0x8D => contStep (sta cpu AddressingMode.Absolute) 2
    | 0x9D => contStep (sta cpu AddressingMode.Absolute_X) 2
    | 0x99 => contStep (sta cpu AddressingMode.Absolute_Y) 2
    | 0x81 => contStep (sta cpu AddressingMode.Indirect_X) 1
    | 0x91 => contStep (sta cpu AddressingMode.Indirect_Y) 1
    | 0x86 => contStep (stx cpu AddressingMode.Zeropage) 1
    | 0x96 => contStep (stx cpu AddressingMode.Zeropage_Y) 1
    | 0x8E => contStep (stx cpu AddressingMode.Absolute) 2
    | 0x84 => contStep (sty cpu AddressingMode.Zeropage) 1
    | 0x94 => contStep (sty cpu AddressingMode.Zeropage_Y) 1
    | 0x8C => contStep (sty cpu AddressingMode.Absolute) 2
    | 0x69 => contStep (adc cpu AddressingMode.Immediate) 1
    | 0x65 => contStep (adc cpu AddressingMode.Zeropage) 1
    | 0x75 => contStep (adc cpu AddressingMode.Zeropage_X) 1
    | 0x6D => contStep (adc cpu AddressingMode.Absolute) 2
    | 0x7D => contStep (adc cpu AddressingMode.Absolute_X) 2
    | 0x79 => contStep (adc cpu AddressingMode.Absolute_Y) 2
    | 0x61 => contStep (adc cpu AddressingMode.Indirect_X) 1
    | 0x71 => contStep (adc cpu AddressingMode.Indirect_Y) 1
    | 0xE9 => contStep (sbc cpu AddressingMode.Immediate) 1
    | 0xE5 => contStep (sbc cpu AddressingMode.Zeropage) 1
    | 0xF5 => contStep (sbc cpu AddressingMode.Zeropage_X) 1
    | 0xED => contStep (sbc cpu AddressingMode.Absolute) 2
    | 0xFD => contStep (sbc cpu AddressingMode.Absolute_X) 2
    | 0xF9 => contStep (sbc cpu AddressingMode.Absolute_Y) 2
    | 0xE1 => contStep (sbc cpu AddressingMode.Indirect_X) 1
    | 0xF1 => contStep (sbc cpu AddressingMode.Indirect_Y) 1
    | 0xE6 => contStep (inc cpu AddressingMode.Zeropage) 1
    | 0xF6 => contStep (inc cpu AddressingMode.Zeropage_X) 1
    | 0xEE => contStep (inc cpu AddressingMode.Absolute) 2
    | 0xFE => contStep (inc cpu AddressingMode.Absolute_X) 2
    | 0xC6 => contStep (dec cpu AddressingMode.Zeropage) 1
    | 0xD6 => contStep (dec cpu AddressingMode.Zeropage_X) 1
    | 0xCE => contStep (dec cpu AddressingMode.Absolute) 2
    | 0xDE => contStep (dec cpu AddressingMode.Absolute_X) 2
    | 0xAA => contPure (tax cpu)
    | 0x8A => contPure (txa cpu)
    | 0xA8 => contPure (tay cpu)
    | 0x98 => contPure (tya cpu)
    | 0xE8 => contPure (inx cpu)
    | 0xCA => contPure (dex cpu)
    | 0xC8 => contPure (iny cpu)
    | 0x88 => contPure (dey cpu)
    | 0x0A => contJump (asl cpu AddressingMode.Accumulator)
    | 0x06 => contStep (asl cpu AddressingMode.Zeropage) 1
    | 0x16 => contStep (asl cpu AddressingMode.Zeropage_X) 1
    | 0x0E => contStep (asl cpu AddressingMode.Absolute) 2
    | 0x1E => contStep (asl cpu AddressingMode.Absolute_X) 2
    | 0x4A => contJump (lsr cpu AddressingMode.Accumulator)
    | 0x46 => contStep (lsr cpu AddressingMode.Zeropage) 1
    | 0x56 => contStep (lsr cpu AddressingMode.Zeropage_X) 1
    | 0x4E => contStep (lsr cpu AddressingMode.Absolute) 2
    | 0x5E => contStep (lsr cpu AddressingMode.Absolute_X) 2
    | 0x2A => contJump (rol cpu AddressingMode.Accumulator)
    | 0x26 => contStep (rol cpu AddressingMode.Zeropage) 1
    | 0x36 => contStep (rol cpu AddressingMode.Zeropage_X) 1
    | 0x2E => contStep (rol cpu AddressingMode.Absolute) 2
    | 0x3E => contStep (rol cpu AddressingMode.Absolute_X) 2
    | 0x6A => contJump (ror cpu AddressingMode.Accumulator)
    | 0x66 => contStep (ror cpu AddressingMode.Zeropage) 1
    | 0x76 => contStep (ror cpu AddressingMode.Zeropage_X) 1
    | 0x6E => contStep (ror cpu AddressingMode.Absolute) 2
    | 0x7E => contStep (ror cpu AddressingMode.Absolute_X) 2
    | 0x29 => contStep (and cpu AddressingMode.Immediate) 1
    | 0x25 => contStep (and cpu AddressingMode.Zeropage) 1
    | 0x35 => contStep (and cpu AddressingMode.Zeropage_X) 1
    | 0x2D => contStep (and cpu AddressingMode.Absolute) 2
    | 0x3D => contStep (and cpu AddressingMode.Absolute_X) 2
    | 0x39 => contStep (and cpu AddressingMode.Absolute_Y) 2
    | 0x21 => contStep (and cpu AddressingMode.Indirect_X) 1
    | 0x31 => contStep (and cpu AddressingMode.Indirect_Y) 1
    | 0x09 => contStep (ora cpu AddressingMode.Immediate) 1
    | 0x05 => contStep (ora cpu AddressingMode.Zeropage) 1
    | 0x15 => contStep (ora cpu AddressingMode.Zeropage_X) 1
    | 0x0D => contStep (ora cpu AddressingMode.Absolute) 2
    | 0x1D => contStep (ora cpu AddressingMode.Absolute_X) 2
    | 0x19 => contStep (ora cpu AddressingMode.Absolute_Y) 2
    | 0x01 => contStep (ora cpu AddressingMode.Indirect_X) 1
    | 0x11 => contStep (ora cpu AddressingMode.Indirect_Y) 1
    | 0x49 => contStep (eor cpu AddressingMode.Immediate) 1
    | 0x45 => contStep (eor cpu AddressingMode.Zeropage) 1
    | 0x55 => contStep (eor cpu AddressingMode.Zeropage_X) 1
    | 0x4D => contStep (eor cpu AddressingMode.Absolute) 2
    | 0x5D => contStep (eor cpu AddressingMode.Absolute_X) 2
    | 0x59 => contStep (eor cpu AddressingMode.Absolute_Y) 2
    | 0x41 => contStep (eor cpu AddressingMode.Indirect_X) 1
    | 0x51 => contStep (eor cpu AddressingMode.Indirect_Y) 1
    | 0x24 => contStep (bit cpu AddressingMode.Zeropage) 1
    | 0x2C => contStep (bit cpu AddressingMode.Absolute) 2
    | 0xC9 => contStep (cmp cpu AddressingMode.Immediate) 1
    | 0xC5 => contStep (cmp cpu AddressingMode.Zeropage) 1
    | 0xD5 => contStep (cmp cpu AddressingMode.Zeropage_X) 1
    | 0xCD => contStep (cmp cpu AddressingMode.Absolute) 2
    | 0xDD => contStep (cmp cpu AddressingMode.Absolute_X) 2
    | 0xD9 => contStep (cmp cpu AddressingMode.Absolute_Y) 2
    | 0xC1 => contStep (cmp cpu AddressingMode.Indirect_X) 1
    | 0xD1 => contStep (cmp cpu AddressingMode.Indirect_Y) 1
    | 0xE0 => contStep (cpx cpu AddressingMode.Immediate) 1
    | 0xE4 => contStep (cpx cpu AddressingMode.Zeropage) 1
    | 0xEC => contStep (cpx cpu AddressingMode.Absolute) 2
    | 0xC0 => contStep (cpy cpu AddressingMode.Immediate) 1
    | 0xC4 => contStep (cpy cpu AddressingMode.Zeropage) 1
    | 0xCC => contStep (cpy cpu AddressingMode.Absolute) 2
    | 0x90 => contStep (bcc cpu AddressingMode.Relative) 1
    | 0xB0 => contStep (bcs cpu AddressingMode.Relative) 1
    | 0xF0 => contStep (beq cpu AddressingMode.Relative) 1
    | 0xD0 => contStep (bne cpu AddressingMode.Relative) 1
    | 0x10 => contStep (bpl cpu AddressingMode.Relative) 1
    | 0x30 => contStep (bmi cpu AddressingMode.Relative) 1
    | 0x50 => contStep (bvc cpu AddressingMode.Relative) 1
    | 0x70 => contStep (bvs cpu AddressingMode.Relative) 1
    | 0x4C => contJump (jmp cpu AddressingMode.Absolute)
    | 0x6C => contJump (jmp cpu AddressingMode.Absolute)
    | 0x00 => some (StepResult.halt cpu)
    | 0x48 => contJump (pha cpu)
    | 0x68 => contJump (pla cpu)
    | 0x08 => contJump (php cpu)
    | 0x28 => contJump (plp cpu)
    | 0x9A => contPure (txs cpu)
    | 0xBA => contPure (tsx cpu)
    | 0x58 => contPure (cli cpu)
    | 0x78 => contPure (sei cpu)
    | 0xD8 => contPure (cld cpu)
    | 0xF8 => contPure (sed cpu)
    | 0xB8 => contPure (clv cpu)
    | _ => none

/- The source fn run() loops run_step until the 0x00 arm returns.  The
loop need not terminate, so the embedding is fuel-indexed: run fuel cpu
returns the final state when the loop returns within fuel iterations. -/
def run : Nat → CPU → Option CPU
  | 0, _ => none
  | fuel + 1, cpu =>
    match run_step cpu with
    | some (StepResult.halt st) => some st
    | some (StepResult.next st) => run fuel st
    | none => none

/- Concrete machine states used to evaluate the embedding at specific
inputs. -/

/- CMP at register_a = 0xFF against operand 0x00 (immediate, memory all
zero). -/
def cmpCx : CPU := { new with register_a := 0xFF }

/- SBC at register_a = 0x90, carry set, operand 0x01. -/
def sbcCx : CPU :=
  { new with register_a := 0x90, status := 0x01,
             memory := fun a => if a = 0 then 0x01 else 0 }

/- Opcode 0x6C at address 0 with pointer 0x0200 as operand and the word
0x1234 stored at 0x0200. -/
def jmpCx : CPU :=
  { new with memory := fun a =>
      if a = 0 then 0x6C else if a = 1 then 0x00 else if a = 2 then 0x02
      else if a = 0x0200 then 0x34 else if a = 0x0201 then 0x12 else 0 }

/- Opcode 0x20 (JSR Absolute, target 0x8003) at address 0. -/
def jsrCx : CPU :=
  { new with memory := fun a =>
      if a = 0 then 0x20 else if a = 1 then 0x03 else if a = 2 then 0x80 else 0 }

/- Opcode 0x60 (RTS) at address 0. -/
def rtsCx : CPU := { new with memory := fun a => if a = 0 then 0x60 else 0 }

/- State as it would be just after fetching a JSR opcode located at
0x8000: PC points at the operand, 0x8001. -/
def jsrW : CPU := { new with program_counter := 0x8001 }

/- Opcode 0x00 (BRK) at address 0 (memory all zero). -/
def brkCx : CPU := new

/- A state with the B flag set in P, about to execute PLP with the byte
0x00 on top of the stack. -/
def plpCx : CPU := { new with status := 0x10, stackpointer := 0xFD }

/- ADC immediate: register_a = 0x50, carry set, operand byte 0xD0. -/
def adcW : CPU :=
  { new with register_a := 0x50, status := 0x01,
             memory := fun a => if a = 0 then 0xD0 else 0 }

/- BCC at address 0 with offset byte 2, carry clear. -/
def branchW : CPU :=
  { new with memory := fun a => if a = 0 then 0x90 else if a = 1 then 2 else 0 }

/- The push_pc / rts composition of the source, started from the state a
JSR at 0x8000 would be in after its opcode fetch (PC = 0x8001): the PC at
which execution would resume after the subroutine returns. -/
def jsrRtsChain : Option Nat :=
  match push_pc jsrW with
  | none => none
  | some c =>
    match rts c with
    | none => none
    | some c2 => some c2.program_counter

/- Claim-side postconditions, stated from the specification text. -/

/- Postcondition of the ADC claim for a machine whose resolved operand
byte is M. -/
def AdcPost (cpu : CPU) (mode : AddressingMode) (M : Nat) : Prop :=
  ∃ st, adc cpu mode = some st ∧
    st.register_a = (cpu.register_a + M + (cpu.status &&& 1)) % 256 ∧
    (is_flag_set CARRY_FLAG st.status = true ↔
      255 < cpu.register_a + M + (cpu.status &&& 1)) ∧
    (is_flag_set OVERFOW_FLAG st.status = true ↔
      (cpu.register_a ^^^ st.register_a) &&& (M ^^^ st.register_a) &&& 0x80 ≠ 0) ∧
    (is_flag_set ZERO_FLAG st.status = true ↔ st.register_a = 0) ∧
    (is_flag_set NEGATIVE_FLAG st.status = true ↔ st.register_a &&& 0x80 ≠ 0) ∧
    (∀ s2 st2, s2 &&& 1 = cpu.status &&& 1 →
      adc { cpu with status := s2 } mode = some st2 →
      st2.register_a = st.register_a)

/- The branch claim for one opcode with its named condition on P: with
the opcode byte at p and the operand byte d at p+1 (inside the backing
array), the instruction neither changes P nor faults, and the next fetch
happens at (p + 2 + signext d) mod 65536 when the condition holds and at
p + 2 otherwise. -/
def BranchPost (opcode : Nat) (cond : Nat → Bool) : Prop :=
  ∀ (cpu : CPU) (p d : Nat),
    cpu.program_counter = p → p + 1 < 0xFFFF →
    cpu.memory p = opcode → cpu.memory (p + 1) = d → d < 256 →
    ∃ st, run_step cpu = some (StepResult.next st) ∧ st.status = cpu.status ∧
      st.program_counter =
        if cond cpu.status then Int.toNat (((p : Int) + 2 + signext d) % 65536)
        else p + 2

/- The BRK claim at one state: executing opcode 0x00 halts run with the
interrupt-disable flag set, the stack pointer down by 3 (two PC bytes and
one status byte pushed), and PC loaded from the vector at 0xFFFE. -/
def BrkClaimHolds (cpu : CPU) : Prop :=
  ∀ st, run_step cpu = some (StepResult.halt st) →
    is_flag_set INTERRUPT_FLAG st.status = true ∧
    st.stackpointer = (cpu.stackpointer + 253) % 256 ∧
    mem_read_u16 st 0xFFFE = some st.program_counter

/- The PLP claim at one state: the popped byte replaces P except that B
keeps its previous value and U is forced to 1, with SP incremented by 1
before the read. -/
def PlpClaimHolds (cpu : CPU) : Prop :=
  ∀ st, plp cpu = some st →
    is_flag_set BREAK_FLAG st.status = is_flag_set BREAK_FLAG cpu.status ∧
    is_flag_set INVALID_FLAG st.status = true ∧
    st.stackpointer = (cpu.stackpointer + 1) % 256

/- What opcode 0x00 actually does in this core: run halts and the only
state change is the PC advance of the opcode fetch. -/
def BrkSentinelPost (cpu : CPU) (p : Nat) : Prop :=
  run_step cpu = some (StepResult.halt (bump cpu 1)) ∧
  (bump cpu 1).status = cpu.status ∧
  (bump cpu 1).stackpointer = cpu.stackpointer ∧
  (bump cpu 1).register_a = cpu.register_a ∧
  (bump cpu 1).memory = cpu.memory ∧
  (bump cpu 1).program_counter = (p + 1) % 65536 ∧
  ∀ fuel, run (fuel + 1) cpu = some (bump cpu 1)

/- Helper lemmas. -/

lemma is_flag_set_testBit (k x : Nat) : is_flag_set (2 ^ k) x = x.testBit k := by
  unfold is_flag_set
  rw [Nat.and_two_pow]
  cases h : x.testBit k <;> simp [h, Nat.pos_pow_of_pos]

lemma carry_bit (x : Nat) : is_flag_set CARRY_FLAG x = x.testBit 0 :=
  is_flag_set_testBit 0 x

lemma zero_bit (x : Nat) : is_flag_set ZERO_FLAG x = x.testBit 1 :=
  is_flag_set_testBit 1 x

lemma decimal_bit (x : Nat) : is_flag_set DECIMAL_FLAG x = x.testBit 3 :=
  is_flag_set_testBit 3 x

lemma overfow_bit (x : Nat) : is_flag_set OVERFOW_FLAG x = x.testBit 6 :=
  is_flag_set_testBit 6 x

lemma negative_bit (x : Nat) : is_flag_set NEGATIVE_FLAG x = x.testBit 7 :=
  is_flag_set_testBit 7 x

lemma mem_read_status (cpu : CPU) (s addr : Nat) :
    mem_read { cpu with status := s } addr = mem_read cpu addr := rfl

lemma get_operand_address_status (cpu : CPU) (s : Nat) (mode : AddressingMode) :
    get_operand_address { cpu with status := s } mode =
      get_operand_address cpu mode := by
  cases mode <;> rfl

/-- C1: the claim asserts that every address 0 .. 0xFFFF is a live memory
cell and that the 16-bit read at 0xFFFF wraps its high byte to address 0.
In the code the backing array has only 0xFFFF = 65535 cells, so address
0xFFFF is out of bounds: mem_read, mem_write and mem_read_u16 all fault
there, while every lower address succeeds. -/
theorem memory_claim_eval :
    mem_read new 0xFFFF = none ∧
    mem_write new 0xFFFF 0 = none ∧
    mem_read_u16 new 0xFFFF = none ∧
    ∀ a, a < 0xFFFF → (mem_read new a).isSome = true := by
  refine ⟨rfl, rfl, rfl, ?_⟩
  intro a ha
  simp [mem_read, ha]

/-- Witness for memory_claim_eval at the concrete address 0. -/
theorem memory_claim_eval_witness :
    (0 : Nat) < 0xFFFF ∧ (mem_read new 0).isSome = true :=
  ⟨by decide, memory_claim_eval.2.2.2 0 (by decide)⟩

/-- C2: the claim asserts that CMP sets C iff reg is at least M
(unsigned).  The code instead derives C from the complement of bit 7 of
the 8-bit difference: at reg = 0xFF, M = 0x00 the difference is 0xFF, so
the code clears C although reg is at least M. -/
theorem cmp_claim_eval :
    cmp cmpCx AddressingMode.Immediate = some { cmpCx with status := 0x80 } ∧
    is_flag_set CARRY_FLAG 0x80 = false ∧
    is_flag_set NEGATIVE_FLAG 0x80 = true ∧
    is_flag_set ZERO_FLAG 0x80 = false ∧
    (0x00 : Nat) ≤ 0xFF :=
  ⟨rfl, by decide, by decide, by decide, by decide⟩

/-- C3: the claim asserts that opcode 0x6C performs the double
indirection of JMP Indirect.  The code dispatches 0x6C as JMP Absolute:
with operand pointer 0x0200 and the word 0x1234 stored at 0x0200, the
step ends with PC = 0x0200 (the pointer itself), not 0x1234. -/
theorem jmp_indirect_claim_eval :
    run_step jmpCx = some (StepResult.next { jmpCx with program_counter := 0x0200 }) ∧
    mem_read_u16 jmpCx 0x0200 = some 0x1234 ∧
    (0x0200 : Nat) ≠ 0x1234 :=
  ⟨rfl, rfl, by decide⟩

/-- C4: the claim asserts that SBC leaves C = 1 exactly when
A + (not M) + C reaches 256 (no borrow).  The code derives C from the
complement of the negative flag of the result: at A = 0x90, M = 0x01,
carry-in 1 the sum is 0x18F (no borrow, so the claim requires C = 1), but
the result 0x8F has bit 7 set, so the code clears C.  The A_after part of
the claim does hold at this input. -/
theorem sbc_claim_eval :
    sbc sbcCx AddressingMode.Immediate =
      some { sbcCx with register_a := 0x8F, status := 0x80 } ∧
    is_flag_set CARRY_FLAG 0x80 = false ∧
    255 < 0x90 + (0x01 ^^^ 0xFF) + 0x01 ∧
    (0x8F : Nat) = (0x90 + (0x01 ^^^ 0xFF) + 0x01) % 256 :=
  ⟨rfl, by decide, by decide, by decide⟩

/-- C5: the claim asserts that JSR (0x20) and RTS (0x60) execute and
round-trip.  Neither opcode has a dispatch arm in run(): both hit the
catch-all todo!() and the run faults.  Moreover the unreachable
push_pc / rts helpers would push PC+2 (not PC+1) and add 1 twice on the
way back: started from the post-fetch state of a JSR at 0x8000 they
resume at 0x8005 instead of 0x8003. -/
theorem jsr_rts_claim_eval :
    run_step jsrCx = none ∧ run 1 jsrCx = none ∧ run_step rtsCx = none ∧
    jsrRtsChain = some 0x8005 ∧ (0x8005 : Nat) ≠ 0x8003 :=
  ⟨rfl, rfl, rfl, rfl, by decide⟩

/-- C8 counterexample: at the all-zero state (opcode 0x00 at address 0)
the halt state has the interrupt flag clear, the stack pointer untouched
and no vector load, contradicting the claimed BRK semantics. -/
theorem brk_claim_counterexample : ¬ BrkClaimHolds brkCx := by
  intro h
  have h2 := h { brkCx with program_counter := 1 } rfl
  exact absurd h2.1 (by decide)

/-- C8 amended: opcode 0x00 makes run() return at once; the only state
change is the PC advance of the opcode fetch — nothing is pushed, P is
untouched, and no vector is read. -/
theorem brk_sentinel_claim (cpu : CPU) (p : Nat) (h1 : cpu.program_counter = p)
    (h2 : p < 0xFFFF) (h3 : cpu.memory p = 0x00) : BrkSentinelPost cpu p := by
  have hf : mem_read cpu cpu.program_counter = some 0x00 := by
    rw [h1]; simp [mem_read, h2, h3]
  have hs : run_step cpu = some (StepResult.halt (bump cpu 1)) := by
    set_option maxRecDepth 100000 in
    unfold run_step
    set_option maxRecDepth 100000 in
    rw [hf]
  refine ⟨hs, rfl, rfl, rfl, rfl, by simp [bump, h1], ?_⟩
  intro fuel
  simp [run, hs]

/-- Witness for brk_sentinel_claim at the all-zero state. -/
theorem brk_sentinel_claim_witness :
    (brkCx.program_counter = 0 ∧ (0 : Nat) < 0xFFFF ∧ brkCx.memory 0 = 0x00) ∧
    BrkSentinelPost brkCx 0 :=
  ⟨⟨rfl, by decide, rfl⟩, brk_sentinel_claim brkCx 0 rfl (by decide) rfl⟩

/-- C9 counterexample: with B set in P and 0x00 on the stack, PLP ends
with P = 0x00 — the popped byte verbatim — so B is not preserved and U is
not forced to 1, contradicting the claim. -/
theorem plp_claim_counterexample : ¬ PlpClaimHolds plpCx := by
  intro h
  have h2 := h { plpCx with stackpointer := 0xFE, status := 0 } rfl
  exact absurd h2.1 (by decide)

/-- C9 amended: PLP increments SP by 1 (mod 256) and then sets P to
exactly the byte at 0x0100 + SP, including its B and U bits as stored;
no bit is preserved from the old P or forced. -/
theorem plp_claim_amended (cpu : CPU) :
    plp cpu = some { cpu with
      stackpointer := (cpu.stackpointer + 1) % 256,
      status := cpu.memory (0x0100 + (cpu.stackpointer + 1) % 256) } := by
  simp only [plp, mem_read]
  rw [if_pos (show 256 + (cpu.stackpointer + 1) % 256 < 65535 by omega)]

/-- C10: load succeeds exactly when the image length is at most
0x7FFF = 32767 (the backing array holds 65535 bytes, one short of the
full address space, so a 32-KiB image already overruns the slice); on
success the image bytes sit at 0x8000 onward and the reset vector
0xFFFC..0xFFFD holds 0x8000 little-endian. -/
theorem load_claim (cpu : CPU) (prog : List Nat) :
    ((load cpu prog).isSome = true ↔ prog.length ≤ 0x7FFF) ∧
    ∀ st, load cpu prog = some st →
      st.memory 0xFFFC = 0x00 ∧ st.memory 0xFFFD = 0x80 ∧
      ∀ i, i < prog.length → 0x8000 + i ≠ 0xFFFC → 0x8000 + i ≠ 0xFFFD →
        st.memory (0x8000 + i) = prog.getD i 0 := by
  by_cases hlen : 0x8000 + prog.length ≤ 0xFFFF
  · have hload : load cpu prog = some
        { cpu with memory := fun a =>
            if a = 0xFFFD then 0x80 else
            if a = 0xFFFC then 0x00 else
            if 0x8000 ≤ a ∧ a < 0x8000 + prog.length then prog.getD (a - 0x8000) 0
            else cpu.memory a } := by
      simp only [load]
      rw [if_pos hlen]
      rfl
    rw [hload]
    constructor
    · simp only [Option.isSome_some]
      constructor
      · intro _; omega
      · intro _; trivial
    · intro st hst
      injection hst with h
      subst h
      refine ⟨by norm_num, by norm_num, ?_⟩
      intro i hi hne1 hne2
      simp only [if_neg hne2, if_neg hne1]
      rw [if_pos (show 0x8000 ≤ 0x8000 + i ∧ 0x8000 + i < 0x8000 + prog.length by omega)]
      have hsub : 0x8000 + i - 0x8000 = i := by omega
      rw [hsub]
  · have hload : load cpu prog = none := by
      simp only [load]
      rw [if_neg hlen]
    rw [hload]
    constructor
    · simp only [Option.isSome_none]
      constructor
      · intro h; exact absurd h (by decide)
      · intro h; omega
    · intro st hst
      exact Option.noConfusion hst

/-- Witness for load_claim at the concrete three-byte image [1, 2, 3]. -/
theorem load_claim_witness :
    ((load new [1, 2, 3]).isSome = true ↔ [1, 2, 3].length ≤ 0x7FFF) ∧
    ∀ st, load new [1, 2, 3] = some st →
      st.memory 0xFFFC = 0x00 ∧ st.memory 0xFFFD = 0x80 ∧
      ∀ i, i < [1, 2, 3].length → 0x8000 + i ≠ 0xFFFC → 0x8000 + i ≠ 0xFFFD →
        st.memory (0x8000 + i) = [1, 2, 3].getD i 0 :=
  load_claim new [1, 2, 3]


lemma relative_resolve (cpu : CPU) (q d : Nat) (h1 : cpu.program_counter = q)
    (h2 : q < 0xFFFF) (h3 : cpu.memory q = d) :
    get_operand_address cpu AddressingMode.Relative =
      some (Int.toNat ((signext d + (q : Int)) % 65536)) := by
  unfold get_operand_address mem_read
  rw [h1, if_pos h2, h3]

lemma branch_relative (cpu : CPU) (q d : Nat) (h1 : cpu.program_counter = q)
    (h2 : q < 0xFFFF) (h3 : cpu.memory q = d) :
    branch cpu AddressingMode.Relative =
      some { cpu with program_counter := Int.toNat ((signext d + (q : Int)) % 65536) } := by
  unfold branch
  rw [if_pos rfl, relative_resolve cpu q d h1 h2 h3]

lemma branch_pc_arith (p d : Nat) :
    (Int.toNat ((signext d + ((p + 1 : Nat) : Int)) % 65536) + 1) % 65536 =
      Int.toNat (((p : Int) + 2 + signext d) % 65536) := by
  unfold signext
  split <;> push_cast <;> omega

lemma bcc_spec : BranchPost 0x90 (fun s => !(is_flag_set CARRY_FLAG s)) := by
  intro cpu p d h1 h2 h3 h4 h5
  have hp : p < 0xFFFF := by omega
  have hfetch : mem_read cpu cpu.program_counter = some 0x90 := by
    unfold mem_read; rw [h1, if_pos hp, h3]
  have hstep : run_step cpu = contStep (bcc (bump cpu 1) AddressingMode.Relative) 1 := by
    set_option maxRecDepth 100000 in
    unfold run_step
    set_option maxRecDepth 100000 in
    rw [hfetch]
  have hb : bump cpu 1 = { cpu with program_counter := p + 1 } := by
    unfold bump; rw [h1, Nat.mod_eq_of_lt (by omega)]
  by_cases hc : is_flag_set CARRY_FLAG cpu.status
  · refine ⟨bump { cpu with program_counter := p + 1 } 1, ?_, rfl, ?_⟩
    · rw [hstep, hb]
      unfold bcc
      simp [hc, contStep]
    · simp [bump, hc]
      omega
  · rw [Bool.not_eq_true] at hc
    refine ⟨bump { cpu with program_counter := Int.toNat ((signext d + ((p + 1 : Nat) : Int)) % 65536) } 1, ?_, rfl, ?_⟩
    · rw [hstep, hb]
      unfold bcc
      rw [hc, if_pos rfl, branch_relative { cpu with program_counter := p + 1 } (p + 1) d rfl h2 h4]
      rfl
    · simp [bump, hc]
      exact branch_pc_arith p d

lemma bcs_spec : BranchPost 0xB0 (fun s => is_flag_set CARRY_FLAG s) := by
  intro cpu p d h1 h2 h3 h4 h5
  have hp : p < 0xFFFF := by omega
  have hfetch : mem_read cpu cpu.program_counter = some 0xB0 := by
    unfold mem_read; rw [h1, if_pos hp, h3]
  have hstep : run_step cpu = contStep (bcs (bump cpu 1) AddressingMode.Relative) 1 := by
    set_option maxRecDepth 100000 in
    unfold run_step
    set_option maxRecDepth 100000 in
    rw [hfetch]
  have hb : bump cpu 1 = { cpu with program_counter := p + 1 } := by
    unfold bump; rw [h1, Nat.mod_eq_of_lt (by omega)]
  have hrel := relative_resolve { cpu with program_counter := p + 1 } (p + 1) d rfl h2 h4
  by_cases hc : is_flag_set CARRY_FLAG cpu.status
  · refine ⟨bump { cpu with program_counter := Int.toNat ((signext d + ((p + 1 : Nat) : Int)) % 65536) } 1, ?_, rfl, ?_⟩
    · rw [hstep, hb]
      unfold bcs
      rw [hrel]
      simp [hc, contStep]
    · simp [bump, hc]
      exact branch_pc_arith p d
  · rw [Bool.not_eq_true] at hc
    refine ⟨bump { cpu with program_counter := p + 1 } 1, ?_, rfl, ?_⟩
    · rw [hstep, hb]
      unfold bcs
      rw [hrel]
      simp [hc, contStep]
    · simp [bump, hc]
      omega

lemma beq_spec : BranchPost 0xF0 (fun s => is_flag_set ZERO_FLAG s) := by
  intro cpu p d h1 h2 h3 h4 h5
  have hp : p < 0xFFFF := by omega
  have hfetch : mem_read cpu cpu.program_counter = some 0xF0 := by
    unfold mem_read; rw [h1, if_pos hp, h3]
  have hstep : run_step cpu = contStep (beq (bump cpu 1) AddressingMode.Relative) 1 := by
    set_option maxRecDepth 100000 in
    unfold run_step
    set_option maxRecDepth 100000 in
    rw [hfetch]
  have hb : bump cpu 1 = { cpu with program_counter := p + 1 } := by
    unfold bump; rw [h1, Nat.mod_eq_of_lt (by omega)]
  have hrel := relative_resolve { cpu with program_counter := p + 1 } (p + 1) d rfl h2 h4
  by_cases hc : is_flag_set ZERO_FLAG cpu.status
  · refine ⟨bump { cpu with program_counter := Int.toNat ((signext d + ((p + 1 : Nat) : Int)) % 65536) } 1, ?_, rfl, ?_⟩
    · rw [hstep, hb]
      unfold beq
      rw [hrel]
      simp [hc, contStep]
    · simp [bump, hc]
      exact branch_pc_arith p d
  · rw [Bool.not_eq_true] at hc
    refine ⟨bump { cpu with program_counter := p + 1 } 1, ?_, rfl, ?_⟩
    · rw [hstep, hb]
      unfold beq
      rw [hrel]
      simp [hc, contStep]
    · simp [bump, hc]
      omega

lemma bne_spec : BranchPost 0xD0 (fun s => !(is_flag_set ZERO_FLAG s)) := by
  intro cpu p d h1 h2 h3 h4 h5
  have hp : p < 0xFFFF := by omega
  have hfetch : mem_read cpu cpu.program_counter = some 0xD0 := by
    unfold mem_read; rw [h1, if_pos hp, h3]
  have hstep : run_step cpu = contStep (bne (bump cpu 1) AddressingMode.Relative) 1 := by
    set_option maxRecDepth 100000 in
    unfold run_step
    set_option maxRecDepth 100000 in
    rw [hfetch]
  have hb : bump cpu 1 = { cpu with program_counter := p + 1 } := by
    unfold bump; rw [h1, Nat.mod_eq_of_lt (by omega)]
  by_cases hc : is_flag_set ZERO_FLAG cpu.status
  · refine ⟨bump { cpu with program_counter := p + 1 } 1, ?_, rfl, ?_⟩
    · rw [hstep, hb]
      unfold bne
      simp [hc, contStep]
    · simp [bump, hc]
      omega
  · rw [Bool.not_eq_true] at hc
    refine ⟨bump { cpu with program_counter := Int.toNat ((signext d + ((p + 1 : Nat) : Int)) % 65536) } 1, ?_, rfl, ?_⟩
    · rw [hstep, hb]
      unfold bne
      rw [hc, if_pos rfl, branch_relative { cpu with program_counter := p + 1 } (p + 1) d rfl h2 h4]
      rfl
    · simp [bump, hc]
      exact branch_pc_arith p d

lemma bpl_spec : BranchPost 0x10 (fun s => !(is_flag_set NEGATIVE_FLAG s)) := by
  intro cpu p d h1 h2 h3 h4 h5
  have hp : p < 0xFFFF := by omega
  have hfetch : mem_read cpu cpu.program_counter = some 0x10 := by
    unfold mem_read; rw [h1, if_pos hp, h3]
  have hstep : run_step cpu = contStep (bpl (bump cpu 1) AddressingMode.Relative) 1 := by
    set_option maxRecDepth 100000 in
    unfold run_step
    set_option maxRecDepth 100000 in
    rw [hfetch]
  have hb : bump cpu 1 = { cpu with program_counter := p + 1 } := by
    unfold bump; rw [h1, Nat.mod_eq_of_lt (by omega)]
  by_cases hc : is_flag_set NEGATIVE_FLAG cpu.status
  · refine ⟨bump { cpu with program_counter := p + 1 } 1, ?_, rfl, ?_⟩
    · rw [hstep, hb]
      unfold bpl
      simp [hc, contStep]
    · simp [bump, hc]
      omega
  · rw [Bool.not_eq_true] at hc
    refine ⟨bump { cpu with program_counter := Int.toNat ((signext d + ((p + 1 : Nat) : Int)) % 65536) } 1, ?_, rfl, ?_⟩
    · rw [hstep, hb]
      unfold bpl
      rw [hc, if_pos rfl, branch_relative { cpu with program_counter := p + 1 } (p + 1) d rfl h2 h4]
      rfl
    · simp [bump, hc]
      exact branch_pc_arith p d

lemma bmi_spec : BranchPost 0x30 (fun s => is_flag_set NEGATIVE_FLAG s) := by
  intro cpu p d h1 h2 h3 h4 h5
  have hp : p < 0xFFFF := by omega
  have hfetch : mem_read cpu cpu.program_counter = some 0x30 := by
    unfold mem_read; rw [h1, if_pos hp, h3]
  have hstep : run_step cpu = contStep (bmi (bump cpu 1) AddressingMode.Relative) 1 := by
    set_option maxRecDepth 100000 in
    unfold run_step
    set_option maxRecDepth 100000 in
    rw [hfetch]
  have hb : bump cpu 1 = { cpu with program_counter := p + 1 } := by
    unfold bump; rw [h1, Nat.mod_eq_of_lt (by omega)]
  by_cases hc : is_flag_set NEGATIVE_FLAG cpu.status
  · refine ⟨bump { cpu with program_counter := Int.toNat ((signext d + ((p + 1 : Nat) : Int)) % 65536) } 1, ?_, rfl, ?_⟩
    · rw [hstep, hb]
      unfold bmi
      rw [hc, if_pos rfl, branch_relative { cpu with program_counter := p + 1 } (p + 1) d rfl h2 h4]
      rfl
    · simp [bump, hc]
      exact branch_pc_arith p d
  · rw [Bool.not_eq_true] at hc
    refine ⟨bump { cpu with program_counter := p + 1 } 1, ?_, rfl, ?_⟩
    · rw [hstep, hb]
      unfold bmi
      simp [hc, contStep]
    · simp [bump, hc]
      omega

lemma bvc_spec : BranchPost 0x50 (fun s => !(is_flag_set OVERFOW_FLAG s)) := by
  intro cpu p d h1 h2 h3 h4 h5
  have hp : p < 0xFFFF := by omega
  have hfetch : mem_read cpu cpu.program_counter = some 0x50 := by
    unfold mem_read; rw [h1, if_pos hp, h3]
  have hstep : run_step cpu = contStep (bvc (bump cpu 1) AddressingMode.Relative) 1 := by
    set_option maxRecDepth 100000 in
    unfold run_step
    set_option maxRecDepth 100000 in
    rw [hfetch]
  have hb : bump cpu 1 = { cpu with program_counter := p + 1 } := by
    unfold bump; rw [h1, Nat.mod_eq_of_lt (by omega)]
  by_cases hc : is_flag_set OVERFOW_FLAG cpu.status
  · refine ⟨bump { cpu with program_counter := p + 1 } 1, ?_, rfl, ?_⟩
    · rw [hstep, hb]
      unfold bvc
      simp [hc, contStep]
    · simp [bump, hc]
      omega
  · rw [Bool.not_eq_true] at hc
    refine ⟨bump { cpu with program_counter := Int.toNat ((signext d + ((p + 1 : Nat) : Int)) % 65536) } 1, ?_, rfl, ?_⟩
    · rw [hstep, hb]
      unfold bvc
      rw [hc, if_pos rfl, branch_relative { cpu with program_counter := p + 1 } (p + 1) d rfl h2 h4]
      rfl
    · simp [bump, hc]
      exact branch_pc_arith p d

lemma bvs_spec : BranchPost 0x70 (fun s => is_flag_set OVERFOW_FLAG s) := by
  intro cpu p d h1 h2 h3 h4 h5
  have hp : p < 0xFFFF := by omega
  have hfetch : mem_read cpu cpu.program_counter = some 0x70 := by
    unfold mem_read; rw [h1, if_pos hp, h3]
  have hstep : run_step cpu = contStep (bvs (bump cpu 1) AddressingMode.Relative) 1 := by
    set_option maxRecDepth 100000 in
    unfold run_step
    set_option maxRecDepth 100000 in
    rw [hfetch]
  have hb : bump cpu 1 = { cpu with program_counter := p + 1 } := by
    unfold bump; rw [h1, Nat.mod_eq_of_lt (by omega)]
  by_cases hc : is_flag_set OVERFOW_FLAG cpu.status
  · refine ⟨bump { cpu with program_counter := Int.toNat ((signext d + ((p + 1 : Nat) : Int)) % 65536) } 1, ?_, rfl, ?_⟩
    · rw [hstep, hb]
      unfold bvs
      rw [hc, if_pos rfl, branch_relative { cpu with program_counter := p + 1 } (p + 1) d rfl h2 h4]
      rfl
    · simp [bump, hc]
      exact branch_pc_arith p d
  · rw [Bool.not_eq_true] at hc
    refine ⟨bump { cpu with program_counter := p + 1 } 1, ?_, rfl, ?_⟩
    · rw [hstep, hb]
      unfold bvs
      simp [hc, contStep]
    · simp [bump, hc]
      omega

/-- C7: for each of the eight branch opcodes, with the opcode byte at p
and the operand byte d at p + 1 (inside the backing array): when the
named condition on P holds, the next opcode fetch happens at
(p + 2 + signext d) mod 65536; when it does not, at p + 2; in both cases
the status byte P is unchanged. -/
theorem branches_claim :
    BranchPost 0x90 (fun s => !(is_flag_set CARRY_FLAG s)) ∧
    BranchPost 0xB0 (fun s => is_flag_set CARRY_FLAG s) ∧
    BranchPost 0xF0 (fun s => is_flag_set ZERO_FLAG s) ∧
    BranchPost 0xD0 (fun s => !(is_flag_set ZERO_FLAG s)) ∧
    BranchPost 0x10 (fun s => !(is_flag_set NEGATIVE_FLAG s)) ∧
    BranchPost 0x30 (fun s => is_flag_set NEGATIVE_FLAG s) ∧
    BranchPost 0x50 (fun s => !(is_flag_set OVERFOW_FLAG s)) ∧
    BranchPost 0x70 (fun s => is_flag_set OVERFOW_FLAG s) :=
  ⟨bcc_spec, bcs_spec, beq_spec, bne_spec, bpl_spec, bmi_spec, bvc_spec, bvs_spec⟩

/-- Witness for branches_claim: BCC at address 0 with offset 2 and
carry clear branches so that the next fetch is at 4. -/
theorem branches_claim_witness :
    (branchW.program_counter = 0 ∧ 0 + 1 < 0xFFFF ∧ branchW.memory 0 = 0x90 ∧
      branchW.memory (0 + 1) = 2 ∧ 2 < 256) ∧
    ∃ st, run_step branchW = some (StepResult.next st) ∧ st.status = branchW.status ∧
      st.program_counter =
        if (fun s => !(is_flag_set CARRY_FLAG s)) branchW.status
        then Int.toNat (((0 : Int) + 2 + signext 2) % 65536) else 0 + 2 :=
  ⟨⟨rfl, by decide, rfl, rfl, by decide⟩,
    branches_claim.1 branchW 0 2 rfl (by decide) rfl rfl (by decide)⟩

/- Literal testBit facts for the status masks used by the instruction
semantics. -/

@[simp] lemma tbit_1_0 : Nat.testBit 1 0 = true := by decide

@[simp] lemma tbit_1_1 : Nat.testBit 1 1 = false := by decide

@[simp] lemma tbit_1_6 : Nat.testBit 1 6 = false := by decide

@[simp] lemma tbit_1_7 : Nat.testBit 1 7 = false := by decide

@[simp] lemma tbit_2_0 : Nat.testBit 2 0 = false := by decide

@[simp] lemma tbit_2_1 : Nat.testBit 2 1 = true := by decide

@[simp] lemma tbit_2_6 : Nat.testBit 2 6 = false := by decide

@[simp] lemma tbit_2_7 : Nat.testBit 2 7 = false := by decide

@[simp] lemma tbit_64_0 : Nat.testBit 64 0 = false := by decide

@[simp] lemma tbit_64_1 : Nat.testBit 64 1 = false := by decide

@[simp] lemma tbit_64_6 : Nat.testBit 64 6 = true := by decide

@[simp] lemma tbit_64_7 : Nat.testBit 64 7 = false := by decide

@[simp] lemma tbit_128_0 : Nat.testBit 128 0 = false := by decide

@[simp] lemma tbit_128_1 : Nat.testBit 128 1 = false := by decide

@[simp] lemma tbit_128_6 : Nat.testBit 128 6 = false := by decide

@[simp] lemma tbit_128_7 : Nat.testBit 128 7 = true := by decide

@[simp] lemma tbit_254_0 : Nat.testBit 254 0 = false := by decide

@[simp] lemma tbit_254_1 : Nat.testBit 254 1 = true := by decide

@[simp] lemma tbit_254_6 : Nat.testBit 254 6 = true := by decide

@[simp] lemma tbit_254_7 : Nat.testBit 254 7 = true := by decide

@[simp] lemma tbit_253_0 : Nat.testBit 253 0 = true := by decide

@[simp] lemma tbit_253_1 : Nat.testBit 253 1 = false := by decide

@[simp] lemma tbit_253_6 : Nat.testBit 253 6 = true := by decide

@[simp] lemma tbit_253_7 : Nat.testBit 253 7 = true := by decide

@[simp] lemma tbit_191_0 : Nat.testBit 191 0 = true := by decide

@[simp] lemma tbit_191_1 : Nat.testBit 191 1 = true := by decide

@[simp] lemma tbit_191_6 : Nat.testBit 191 6 = false := by decide

@[simp] lemma tbit_191_7 : Nat.testBit 191 7 = true := by decide

@[simp] lemma tbit_127_0 : Nat.testBit 127 0 = true := by decide

@[simp] lemma tbit_127_1 : Nat.testBit 127 1 = true := by decide

@[simp] lemma tbit_127_6 : Nat.testBit 127 6 = true := by decide

@[simp] lemma tbit_127_7 : Nat.testBit 127 7 = false := by decide

lemma adc_bits (a s M c t1 base t2 a2 s1 s2 s3 s4 : Nat)
    (hm : M < 256)
    (hc : c = s &&& 1)
    (ht1 : t1 = M + c)
    (hbase : base = t1 % 256)
    (ht2 : t2 = a + base)
    (ha2 : a2 = t2 % 256)
    (hs1 : s1 = if s &&& 0b00000001 = 0b00000001 then s &&& 0b11111110 else s)
    (hs2 : s2 = update_zero_and_negative_flags s1 a2)
    (hs3 : s3 = if 256 ≤ t1 ∨ 256 ≤ t2 then s2 ||| 0x01 else s2 &&& 0b11111110)
    (hs4 : s4 = if (a2 ^^^ a) &&& (a2 ^^^ M) &&& 0x80 ≠ 0 then s3 ||| 0b01000000 else s3 &&& 0b10111111) :
    a2 = (a + M + c) % 256 ∧
    (s4.testBit 0 = true ↔ 255 < a + M + c) ∧
    (s4.testBit 6 = true ↔ (a ^^^ a2) &&& (M ^^^ a2) &&& 0x80 ≠ 0) ∧
    (s4.testBit 1 = true ↔ a2 = 0) ∧
    (s4.testBit 7 = true ↔ a2 &&& 0x80 ≠ 0) := by
  have hc1 : c ≤ 1 := by rw [hc, Nat.and_one_is_mod]; omega
  have h40 : s4.testBit 0 = s3.testBit 0 := by
    rw [hs4]; split <;> simp [Nat.testBit_lor, Nat.testBit_land]
  have h41 : s4.testBit 1 = s3.testBit 1 := by
    rw [hs4]; split <;> simp [Nat.testBit_lor, Nat.testBit_land]
  have h47 : s4.testBit 7 = s3.testBit 7 := by
    rw [hs4]; split <;> simp [Nat.testBit_lor, Nat.testBit_land]
  have h46 : s4.testBit 6 = decide ((a2 ^^^ a) &&& (a2 ^^^ M) &&& 0x80 ≠ 0) := by
    rw [hs4]; split <;> rename_i h <;>
      simp [Nat.testBit_lor, Nat.testBit_land, h]
  have h30 : s3.testBit 0 = decide (256 ≤ t1 ∨ 256 ≤ t2) := by
    rw [hs3]; split <;> rename_i h <;>
      simp [Nat.testBit_lor, Nat.testBit_land, h]
  have h31 : s3.testBit 1 = s2.testBit 1 := by
    rw [hs3]; split <;> simp [Nat.testBit_lor, Nat.testBit_land]
  have h37 : s3.testBit 7 = s2.testBit 7 := by
    rw [hs3]; split <;> simp [Nat.testBit_lor, Nat.testBit_land]
  have h21 : s2.testBit 1 = decide (a2 = 0) := by
    rw [hs2]; simp only [update_zero_and_negative_flags]
    split <;> rename_i hN <;> split <;> rename_i hZ <;>
      simp [Nat.testBit_lor, Nat.testBit_land, hZ]
  have h27 : s2.testBit 7 = decide (a2 &&& 0x80 ≠ 0) := by
    rw [hs2]; simp only [update_zero_and_negative_flags]
    split <;> rename_i hN <;> split <;> rename_i hZ <;>
      simp [Nat.testBit_lor, Nat.testBit_land, hN]
  refine ⟨?_, ?_, ?_, ?_, ?_⟩
  · rw [ha2, ht2, hbase, ht1]; omega
  · rw [h40, h30, ht1, ht2, hbase, ht1]
    simp only [decide_eq_true_eq]
    omega
  · rw [h46]
    simp only [decide_eq_true_eq]
    rw [Nat.xor_comm a2 a, Nat.xor_comm a2 M]
  · rw [h41, h31, h21]; simp
  · rw [h47, h37, h27]; simp


/-- C6: after any ADC with resolved operand byte M: the accumulator
becomes (A + M + C) mod 256; the carry flag is set iff A + M + C exceeds
255; the overflow flag is set iff ((A xor A_after) and (M xor A_after)
and 0x80) is nonzero; Z and N are set from A_after; and the decimal flag
has no effect on the result (any status byte with the same carry bit
yields the same A_after). -/
theorem adc_claim (cpu : CPU) (mode : AddressingMode) (addr M : Nat)
    (h1 : get_operand_address cpu mode = some addr)
    (h2 : mem_read cpu addr = some M)
    (ha : cpu.register_a < 256) (hm : M < 256) :
    AdcPost cpu mode M := by
  have key := adc_bits cpu.register_a cpu.status M _ _ _ _ _ _ _ _ _
    hm rfl rfl rfl rfl rfl rfl rfl rfl rfl
  unfold AdcPost adc
  simp only [h1, h2]
  refine ⟨_, rfl, ?_, ?_, ?_, ?_, ?_, ?_⟩
  · exact key.1
  · rw [carry_bit]
    exact key.2.1
  · rw [overfow_bit]
    exact key.2.2.1
  · rw [zero_bit]
    exact key.2.2.2.1
  · rw [negative_bit]
    exact key.2.2.2.2
  · intro s2v st2 hs2v hadc
    rw [get_operand_address_status cpu s2v mode, h1] at hadc
    simp only [mem_read_status, h2] at hadc
    rw [Option.some.injEq] at hadc
    subst hadc
    simp [hs2v]

/-- Witness for adc_claim: ADC immediate with A = 0x50, carry set,
operand 0xD0 (the scenario of the carry test in the specification). -/
theorem adc_claim_witness :
    (get_operand_address adcW AddressingMode.Immediate = some 0 ∧
     mem_read adcW 0 = some 0xD0 ∧ adcW.register_a < 256 ∧ (0xD0 : Nat) < 256) ∧
    AdcPost adcW AddressingMode.Immediate 0xD0 :=
  ⟨⟨rfl, rfl, by decide, by decide⟩,
    adc_claim adcW AddressingMode.Immediate 0 0xD0 rfl rfl (by decide) (by decide)⟩

end CPU6502
